import Mathlib

/-!
Verification of the daily-reflection plugin (`src/main.ts`).

The plugin collects answers to a configured list of journal questions in a
modal form and writes them as a markdown document into a host-provided
document store ("vault").  We embed the plugin's data model and operations
shallowly:

* `Question`, `ReflectionSettings`, `DEFAULT_SETTINGS` mirror the interfaces
  and the constant of the same names in `main.ts`.
* The answer map (a JS `Record<string, string>`) is an association list with
  unique keys maintained by `setAnswer`; `answers[q.id] ?? ""` becomes
  `answerValue`.
* The vault is an association list from paths to file contents.
  `getAbstractFileByPath` becomes `getFileByPath`, `vault.create` appends a
  fresh entry, `vault.modify` replaces the content stored under an existing
  path.  A file handle is identified with its path.
* The wall clock (the `moment()` calls) is passed in explicitly: a `Date`
  record for the `YYYY-MM-DD` file name, and the host-formatted long date
  string (`dddd, MMMM D YYYY`) for the document heading, which the plugin
  treats as opaque text.
-/

namespace DailyReflection

/-- Input kinds of a question: the `type` field of `interface Question`. -/
inductive QType where
  | text
  | number
  | dropdown
deriving DecidableEq, Repr

/-- A single prompt definition, from `interface Question` in `main.ts`:
`id` is the answer-map key, `label` the display text, `choices` is the
optional dropdown choice list (`choices?: string[]`). -/
structure Question where
  id : String
  label : String
  type : QType
  choices : Option (List String)
deriving DecidableEq, Repr

/-- Process-wide configuration, from `interface ReflectionSettings`. -/
structure ReflectionSettings where
  dailyFolder : String
  questions : List Question
deriving DecidableEq, Repr

/-- The hard-coded defaults `DEFAULT_SETTINGS` of `main.ts`, verbatim. -/
def DEFAULT_SETTINGS : ReflectionSettings :=
  ⟨"Daily",
   [⟨"todo", "✅ What I want to accomplish today", QType.text, none⟩,
    ⟨"yesterday", "☑️ Reflections on yesterday’s to-do list & accomplishments", QType.text, none⟩,
    ⟨"dreams", "😴 Dreams", QType.text, none⟩,
    ⟨"sleepHours", "🛌 Hours of sleep", QType.dropdown,
      some ["4", "5", "6", "7", "8", "9", "10", "11", "12"]⟩,
    ⟨"sleepLowest", "Lowest heart rate", QType.number, none⟩,
    ⟨"sleepAvg", "Average heart rate", QType.number, none⟩,
    ⟨"hrv", "HRV", QType.number, none⟩,
    ⟨"sleepPattern", "Sleep pattern", QType.dropdown,
      some ["Deep", "Interrupted", "REM rich", "🤷‍♂️"]⟩,
    ⟨"food", "🍏 Food", QType.text, none⟩,
    ⟨"energy", "⚡️ Energy level", QType.dropdown, some ["High", "Medium", "Low"]⟩,
    ⟨"myday", "📆 My Day", QType.text, none⟩,
    ⟨"sad", "😔 What am I sad about?", QType.dropdown,
      some ["Nothing", "Work", "Relationships", "Health", "Other…"]⟩,
    ⟨"body", "❤️‍🩹 What does my body want?", QType.dropdown,
      some ["Rest", "Exercise", "Stretch", "Hydrate", "Healthy food", "Other…"]⟩,
    ⟨"media", "🎦 Books / Podcasts / Media Reflection", QType.text, none⟩,
    ⟨"gratitude", "🙏 What am I grateful for?", QType.text, none⟩,
    ⟨"triggers", "❌ Triggers / Failures", QType.text, none⟩]⟩

/-- An answer map `Record<string, string>`, as an association list. -/
def Answers : Type := List (String × String)

/-- First-match lookup in an answer map. -/
def lookupAnswer : List (String × String) → String → Option String
  | [], _ => none
  | (k, v) :: rest, key => if k = key then some v else lookupAnswer rest key

/-- The value rendered for a question: `answers[q.id] ?? ""` in
`writeDailyNote` — the stored string, or `""` when the id is absent. -/
def answerValue (answers : List (String × String)) (key : String) : String :=
  (lookupAnswer answers key).getD ""

/-- JS object-key assignment `answers[id] = v`: replace the value under an
existing key, otherwise add the key. -/
def setAnswer : List (String × String) → String → String → List (String × String)
  | [], key, v => [(key, v)]
  | (k, c) :: rest, key, v =>
    if k = key then (k, v) :: rest else (k, c) :: setAnswer rest key v

/-- The markdown body built by `writeDailyNote`:
`let md = "# " + longDate + "\n\n"` followed by the
`for (const q of questions) md += "### " + q.label + "\n" + value + "\n\n"`
loop, as a left fold. `longDate` is the host-formatted
`moment().format("dddd, MMMM D YYYY")` string. -/
def renderBody (s : ReflectionSettings) (answers : List (String × String))
    (longDate : String) : String :=
  s.questions.foldl
    (fun md q => md ++ "### " ++ q.label ++ "\n" ++ answerValue answers q.id ++ "\n\n")
    ("# " ++ longDate ++ "\n\n")

/-- A calendar date as read from the wall clock by `moment()`. -/
structure Date where
  year : Nat
  month : Nat
  day : Nat
deriving DecidableEq, Repr

/-- Two-digit zero-padded numeral, as produced by moment's `MM` / `DD`. -/
def pad2 (n : Nat) : String :=
  if n < 10 then "0" ++ toString n else toString n

/-- Four-digit zero-padded numeral, as produced by moment's `YYYY`. -/
def pad4 (n : Nat) : String :=
  if n < 10 then "000" ++ toString n
  else if n < 100 then "00" ++ toString n
  else if n < 1000 then "0" ++ toString n
  else toString n

/-- `moment().format("YYYY-MM-DD")`. -/
def formatIsoDate (d : Date) : String :=
  pad4 d.year ++ "-" ++ pad2 d.month ++ "-" ++ pad2 d.day

/-- The note path resolved by `writeDailyNote`:
`` `${this.settings.dailyFolder}/${fileName}` `` with
`fileName = moment().format("YYYY-MM-DD") + ".md"`. -/
def notePath (s : ReflectionSettings) (d : Date) : String :=
  s.dailyFolder ++ "/" ++ formatIsoDate d ++ ".md"

/-- The host document store: path → content entries. -/
def Vault : Type := List (String × String)

/-- `app.vault.getAbstractFileByPath(path)`: the content stored at a path,
`none` when no file exists there. -/
def getFileByPath : List (String × String) → String → Option String
  | [], _ => none
  | (p, c) :: rest, path => if p = path then some c else getFileByPath rest path

/-- `app.vault.create(path, content)`: a new document enters the store. -/
def vaultCreate (v : List (String × String)) (path content : String) :
    List (String × String) :=
  v ++ [(path, content)]

/-- `app.vault.modify(file, content)`: overwrite the content held under the
handle's path, leaving every other file untouched. -/
def vaultModify : List (String × String) → String → String → List (String × String)
  | [], _, _ => []
  | (p, c) :: rest, path, content =>
    if p = path then (p, content) :: rest else (p, c) :: vaultModify rest path content

/-- `DailyReflectionPlugin.writeDailyNote(answers)`: resolve today's path,
fetch the existing file or create an empty one, then overwrite it with the
rendered markdown body.  (Opening the note in a pane afterwards does not
touch the store and is not modelled.) -/
def writeDailyNote (s : ReflectionSettings) (answers : List (String × String))
    (today : Date) (longDate : String) (v : List (String × String)) :
    List (String × String) :=
  let path := notePath s today
  let md := renderBody s answers longDate
  match getFileByPath v path with
  | none => vaultModify (vaultCreate v path "") path md
  | some _ => vaultModify v path md

/-- `loadData()`'s result: a persisted record in which each top-level
settings key may be absent. -/
structure PersistedSettings where
  dailyFolder : Option String
  questions : Option (List Question)
deriving DecidableEq, Repr

/-- `DailyReflectionPlugin.loadSettings`:
`Object.assign({}, DEFAULT_SETTINGS, await this.loadData())` — a shallow
merge in which each top-level key present in the persisted record replaces
the default wholesale. -/
def loadSettings (persisted : PersistedSettings) : ReflectionSettings :=
  ⟨persisted.dailyFolder.getD DEFAULT_SETTINGS.dailyFolder,
   persisted.questions.getD DEFAULT_SETTINGS.questions⟩

/-- `value.trim()`: strip leading and trailing whitespace.  Implemented
structurally over the character list so that it evaluates; it strips the
whitespace characters `Char.isWhitespace` recognises. -/
def trimString (s : String) : String :=
  ⟨((s.data.dropWhile Char.isWhitespace).reverse.dropWhile Char.isWhitespace).reverse⟩

/-- The settings tab's folder-field handler:
`this.plugin.settings.dailyFolder = value.trim() || "Daily"` — the trimmed
input, or the literal `"Daily"` when the trimmed input is empty (the only
falsy string). -/
def storedDailyFolder (value : String) : String :=
  if trimString value = "" then "Daily" else trimString value

/-- The input widget created by `ReflectionModal.onOpen` for one question. -/
inductive Widget where
  | textArea
  | numberInput
  | dropdown (options : List String)
deriving DecidableEq, Repr

/-- The `switch (q.type)` of `ReflectionModal.onOpen`: `text` gets a
`TextAreaComponent`, `number` a numeric `TextComponent`, `dropdown` a
`DropdownComponent` filled from `q.choices!` — the non-null assertion makes
`q.choices!.forEach` a runtime failure (`none`) when `choices` is absent. -/
def renderQuestion (q : Question) : Option Widget :=
  match q.type with
  | QType.text => some Widget.textArea
  | QType.number => some Widget.numberInput
  | QType.dropdown =>
    match q.choices with
    | some cs => some (Widget.dropdown cs)
    | none => none

/-- Rendering the whole form: `settings.questions.forEach(...)`, which stops
at the first question whose rendering throws. -/
def renderForm : List Question → Option (List Widget)
  | [] => some []
  | q :: qs =>
    match renderQuestion q, renderForm qs with
    | some w, some ws => some (w :: ws)
    | _, _ => none

/-- A user interaction with the open `ReflectionModal`: an input's
`onChange` firing, the Save button's `onClick`, or dismissing the modal
without saving. -/
inductive FormEvent where
  | change (id : String) (value : String)
  | save
  | dismiss
deriving DecidableEq, Repr

/-- The observable state of one modal session: the accumulated `answers`
record, whether the modal has been closed, and the list of argument maps the
completion callback `onSubmit` has been invoked with. -/
structure ModalState where
  answers : List (String × String)
  closed : Bool
  submissions : List (List (String × String))
deriving DecidableEq, Repr

/-- One event against the modal.  A closed modal receives no further events.
`change id v` runs an input's `onChange`: `this.answers[q.id] = v`.
`save` runs the Save button's `onClick`: `this.close(); this.onSubmit(this.answers)`.
`dismiss` closes the modal without saving; `onClose` only empties the
content element and never invokes the callback. -/
def stepModal (st : ModalState) (e : FormEvent) : ModalState :=
  if st.closed then st
  else
    match e with
    | FormEvent.change key v => ⟨setAnswer st.answers key v, false, st.submissions⟩
    | FormEvent.save => ⟨st.answers, true, st.submissions ++ [st.answers]⟩
    | FormEvent.dismiss => ⟨st.answers, true, st.submissions⟩

/-- A whole modal session: each invocation starts from a fresh empty answer
map (`answers: Record<string, string> = {}`) with no submissions. -/
def runSession (events : List FormEvent) : ModalState :=
  events.foldl stepModal ⟨[], false, []⟩

/-- The `change` events of a list of (id, value) field interactions. -/
def changeEvents (changes : List (String × String)) : List FormEvent :=
  changes.map (fun kv => FormEvent.change kv.1 kv.2)

/-- The answer map accumulated from a list of field interactions. -/
def collectAnswers (changes : List (String × String)) : List (String × String) :=
  changes.foldl (fun a kv => setAnswer a kv.1 kv.2) []

/-- The document-store effect of a session: the command's callback runs
`writeDailyNote` once per `onSubmit` invocation. -/
def applySubmissions (s : ReflectionSettings) (today : Date) (longDate : String)
    (subs : List (List (String × String))) (v : List (String × String)) :
    List (String × String) :=
  subs.foldl (fun vault a => writeDailyNote s a today longDate vault) v

/-! ### Helper lemmas about the vault association list -/

/-- The concatenation of a list of markdown fragments. -/
def joinParts : List String → String
  | [] => ""
  | s :: rest => s ++ joinParts rest

/-- The markdown entry `writeDailyNote` emits for one question. -/
def entryFor (answers : List (String × String)) (q : Question) : String :=
  "### " ++ q.label ++ "\n" ++ answerValue answers q.id ++ "\n\n"

theorem renderBody_go (answers : List (String × String)) (qs : List Question)
    (init : String) :
    qs.foldl
      (fun md q => md ++ "### " ++ q.label ++ "\n" ++ answerValue answers q.id ++ "\n\n")
      init
    = init ++ joinParts (qs.map (entryFor answers)) := by
  induction qs generalizing init with
  | nil => simp [joinParts]
  | cons q qs ih =>
    rw [List.foldl_cons, ih]
    simp [joinParts, entryFor, String.append_assoc]

theorem renderBody_eq (s : ReflectionSettings) (answers : List (String × String))
    (longDate : String) :
    renderBody s answers longDate
      = ("# " ++ longDate ++ "\n\n") ++ joinParts (s.questions.map (entryFor answers)) :=
  renderBody_go answers s.questions _

theorem vaultModify_of_absent (v : List (String × String)) (path c : String)
    (h : getFileByPath v path = none) : vaultModify v path c = v := by
  induction v with
  | nil => rfl
  | cons e rest ih =>
    obtain ⟨p, x⟩ := e
    by_cases hp : p = path
    · simp [getFileByPath, hp] at h
    · simp [getFileByPath, hp] at h
      simp [vaultModify, hp, ih h]

theorem vaultModify_append_single (v : List (String × String)) (path x c : String)
    (h : getFileByPath v path = none) :
    vaultModify (v ++ [(path, x)]) path c = v ++ [(path, c)] := by
  induction v with
  | nil => simp [vaultModify]
  | cons e rest ih =>
    obtain ⟨p, y⟩ := e
    by_cases hp : p = path
    · simp [getFileByPath, hp] at h
    · simp [getFileByPath, hp] at h
      simp [vaultModify, hp, ih h]

theorem getFileByPath_append_single_self (v : List (String × String)) (path x : String)
    (h : getFileByPath v path = none) :
    getFileByPath (v ++ [(path, x)]) path = some x := by
  induction v with
  | nil => simp [getFileByPath]
  | cons e rest ih =>
    obtain ⟨p, y⟩ := e
    by_cases hp : p = path
    · simp [getFileByPath, hp] at h
    · simp [getFileByPath, hp] at h
      simp [getFileByPath, hp, ih h]

theorem getFileByPath_vaultModify_self (v : List (String × String)) (path c x : String)
    (h : getFileByPath v path = some c) :
    getFileByPath (vaultModify v path x) path = some x := by
  induction v with
  | nil => simp [getFileByPath] at h
  | cons e rest ih =>
    obtain ⟨p, y⟩ := e
    by_cases hp : p = path
    · simp [vaultModify, getFileByPath, hp]
    · simp [getFileByPath, hp] at h
      simp [vaultModify, getFileByPath, hp, ih h]

theorem vaultModify_vaultModify (v : List (String × String)) (path c1 c2 : String) :
    vaultModify (vaultModify v path c1) path c2 = vaultModify v path c2 := by
  induction v with
  | nil => rfl
  | cons e rest ih =>
    obtain ⟨p, y⟩ := e
    by_cases hp : p = path
    · simp [vaultModify, hp]
    · simp [vaultModify, hp, ih]

theorem getFileByPath_vaultModify_other (v : List (String × String))
    (path c q : String) (hq : q ≠ path) :
    getFileByPath (vaultModify v path c) q = getFileByPath v q := by
  induction v with
  | nil => rfl
  | cons e rest ih =>
    obtain ⟨p, y⟩ := e
    by_cases hp : p = path
    · subst hp
      have h1 : ¬ p = q := fun h => hq h.symm
      simp [vaultModify, getFileByPath, h1]
    · by_cases hpq : p = q
      · have hqpath : ¬ q = path := fun h => hp (hpq.trans h)
        simp [vaultModify, getFileByPath, hpq, hqpath]
      · simp [vaultModify, getFileByPath, hp, hpq, ih]

theorem getFileByPath_append_single_other (v : List (String × String))
    (path x q : String) (hq : q ≠ path) :
    getFileByPath (v ++ [(path, x)]) q = getFileByPath v q := by
  induction v with
  | nil =>
    have h1 : ¬ path = q := fun h => hq h.symm
    simp [getFileByPath, h1]
  | cons e rest ih =>
    obtain ⟨p, y⟩ := e
    by_cases hpq : p = q
    · simp [getFileByPath, hpq]
    · simp [getFileByPath, hpq, ih]

theorem vaultModify_map_fst (v : List (String × String)) (path c : String) :
    (vaultModify v path c).map Prod.fst = v.map Prod.fst := by
  induction v with
  | nil => rfl
  | cons e rest ih =>
    obtain ⟨p, y⟩ := e
    by_cases hp : p = path
    · simp [vaultModify, hp]
    · simp [vaultModify, hp, ih]

theorem vaultModify_length (v : List (String × String)) (path c : String) :
    (vaultModify v path c).length = v.length := by
  have := vaultModify_map_fst v path c
  calc (vaultModify v path c).length = ((vaultModify v path c).map Prod.fst).length := by
        simp
    _ = (v.map Prod.fst).length := by rw [this]
    _ = v.length := by simp

theorem writeDailyNote_eq_absent (s : ReflectionSettings)
    (a : List (String × String)) (d : Date) (longDate : String)
    (v : List (String × String)) (h : getFileByPath v (notePath s d) = none) :
    writeDailyNote s a d longDate v
      = v ++ [(notePath s d, renderBody s a longDate)] := by
  simp only [writeDailyNote, h]
  exact vaultModify_append_single v _ _ _ h

theorem writeDailyNote_eq_present (s : ReflectionSettings)
    (a : List (String × String)) (d : Date) (longDate : String)
    (v : List (String × String)) (c : String)
    (h : getFileByPath v (notePath s d) = some c) :
    writeDailyNote s a d longDate v
      = vaultModify v (notePath s d) (renderBody s a longDate) := by
  simp only [writeDailyNote, h]

theorem foldl_changeEvents (changes : List (String × String))
    (a : List (String × String)) (subs : List (List (String × String))) :
    (changeEvents changes).foldl stepModal ⟨a, false, subs⟩
      = ⟨changes.foldl (fun m kv => setAnswer m kv.1 kv.2) a, false, subs⟩ := by
  induction changes generalizing a with
  | nil => rfl
  | cons kv rest ih =>
    simp only [changeEvents, List.map_cons, List.foldl_cons]
    have h1 : stepModal ⟨a, false, subs⟩ (FormEvent.change kv.1 kv.2)
        = ⟨setAnswer a kv.1 kv.2, false, subs⟩ := rfl
    rw [h1]
    simpa [changeEvents] using ih (setAnswer a kv.1 kv.2)

theorem runSession_append_single (l : List FormEvent) (e : FormEvent) :
    runSession (l ++ [e]) = stepModal (runSession l) e := by
  simp [runSession, List.foldl_append]

theorem runSession_changeEvents (changes : List (String × String)) :
    runSession (changeEvents changes) = ⟨collectAnswers changes, false, []⟩ :=
  foldl_changeEvents changes [] []

theorem renderForm_total (qs : List Question)
    (hwf : ∀ r ∈ qs, r.type = QType.dropdown → r.choices ≠ none) :
    ∃ ws, renderForm qs = some ws := by
  induction qs with
  | nil => exact ⟨[], rfl⟩
  | cons r rest ih =>
    have hr : ∃ w, renderQuestion r = some w := by
      cases htype : r.type with
      | text => exact ⟨Widget.textArea, by simp [renderQuestion, htype]⟩
      | number => exact ⟨Widget.numberInput, by simp [renderQuestion, htype]⟩
      | dropdown =>
        have hne := hwf r (by simp) htype
        cases hch : r.choices with
        | none => exact absurd hch hne
        | some cs => exact ⟨Widget.dropdown cs, by simp [renderQuestion, htype, hch]⟩
    obtain ⟨w, hw⟩ := hr
    obtain ⟨ws, hws⟩ := ih (fun r' hmem => hwf r' (List.mem_cons_of_mem _ hmem))
    exact ⟨w :: ws, by simp [renderForm, hw, hws]⟩

theorem joinParts_map_entry_congr (a1 a2 : List (String × String))
    (qs : List Question)
    (hagree : ∀ q ∈ qs, answerValue a1 q.id = answerValue a2 q.id) :
    joinParts (qs.map (entryFor a1)) = joinParts (qs.map (entryFor a2)) := by
  induction qs with
  | nil => rfl
  | cons q rest ih =>
    have hq : answerValue a1 q.id = answerValue a2 q.id :=
      hagree q (List.mem_cons_self q rest)
    have hrest := ih (fun r hmem => hagree r (List.mem_cons_of_mem _ hmem))
    simp [joinParts, entryFor, hq, hrest]

/-! ### Claim theorems -/

/-- C1: the markdown body rendered by `writeDailyNote` is the date heading
followed by, for each question in settings order, exactly one `###`
subheading with that question's label and a body line holding the answer
stored under the question's id (the empty string when absent), each entry
followed by a blank line; with an empty answer map every body is empty but
every subheading is still present. -/
theorem renderBody_one_entry_per_question (s : ReflectionSettings)
    (answers : List (String × String)) (longDate : String) :
    renderBody s answers longDate
      = "# " ++ longDate ++ "\n\n"
          ++ joinParts (s.questions.map
              (fun q => "### " ++ q.label ++ "\n" ++ answerValue answers q.id ++ "\n\n"))
  ∧ renderBody s [] longDate
      = "# " ++ longDate ++ "\n\n"
          ++ joinParts (s.questions.map (fun q => "### " ++ q.label ++ "\n\n\n")) := by
  constructor
  · exact renderBody_eq s answers longDate
  · rw [renderBody_eq]
    have hfun : ∀ q : Question, entryFor [] q = "### " ++ q.label ++ "\n\n\n" := by
      intro q
      show "### " ++ q.label ++ "\n" ++ answerValue [] q.id ++ "\n\n" = _
      have hempty : answerValue [] q.id = "" := rfl
      have hnl : ("\n" : String) ++ "\n\n" = "\n\n\n" := rfl
      rw [hempty, String.append_empty, String.append_assoc, hnl]
    have hmap : s.questions.map (entryFor [])
        = s.questions.map (fun q => "### " ++ q.label ++ "\n\n\n") := by
      induction s.questions with
      | nil => rfl
      | cons q rest ih => simp [List.map_cons, hfun q, ih]
    rw [hmap]

/-- C2: with answers `{todo: "Ship the spec"}` and the two-question list
`todo` / `dreams`, the rendered body is the date heading, then
`### ✅ What I want to accomplish today\nShip the spec\n\n`, then
`### 😴 Dreams\n\n\n`. -/
theorem renderBody_concrete_example (longDate : String) :
    renderBody
        ⟨"Daily",
         [⟨"todo", "✅ What I want to accomplish today", QType.text, none⟩,
          ⟨"dreams", "😴 Dreams", QType.text, none⟩]⟩
        [("todo", "Ship the spec")] longDate
      = ("# " ++ longDate ++ "\n\n")
          ++ ("### ✅ What I want to accomplish today\nShip the spec\n\n"
              ++ "### 😴 Dreams\n\n\n") := by
  rw [renderBody_eq]
  exact congrArg (fun t => ("# " ++ longDate ++ "\n\n") ++ t) (by decide)

/-- C3: `loadSettings` is a shallow merge of the persisted record over the
defaults: each top-level key absent from the record takes the default's
value, and each key present replaces the default's value entirely — the
questions array wholesale, not concatenated or element-merged. -/
theorem loadSettings_shallow_merge (p : PersistedSettings) :
    (p.dailyFolder = none → (loadSettings p).dailyFolder = DEFAULT_SETTINGS.dailyFolder)
  ∧ (∀ f, p.dailyFolder = some f → (loadSettings p).dailyFolder = f)
  ∧ (p.questions = none → (loadSettings p).questions = DEFAULT_SETTINGS.questions)
  ∧ (∀ qs, p.questions = some qs → (loadSettings p).questions = qs) := by
  refine ⟨fun h => ?_, fun f h => ?_, fun h => ?_, fun qs h => ?_⟩ <;>
    simp [loadSettings, h]

/-- Witness for C3 at the empty record and a fully-present record. -/
theorem loadSettings_shallow_merge_witness :
    (loadSettings ⟨none, none⟩).dailyFolder = DEFAULT_SETTINGS.dailyFolder
  ∧ (loadSettings ⟨some "Notes", some []⟩).dailyFolder = "Notes"
  ∧ (loadSettings ⟨none, none⟩).questions = DEFAULT_SETTINGS.questions
  ∧ (loadSettings ⟨some "Notes", some []⟩).questions = [] :=
  ⟨(loadSettings_shallow_merge ⟨none, none⟩).1 rfl,
   (loadSettings_shallow_merge ⟨some "Notes", some []⟩).2.1 "Notes" rfl,
   (loadSettings_shallow_merge ⟨none, none⟩).2.2.1 rfl,
   (loadSettings_shallow_merge ⟨some "Notes", some []⟩).2.2.2 [] rfl⟩

/-- C4: two `writeDailyNote` runs on the same calendar day leave the store
exactly as a single run with the second answer map would: the write replaces
the document's entire content, with no append, no merge, and no dependence
on the first write's answers. -/
theorem writeDailyNote_overwrites_previous (s : ReflectionSettings)
    (a1 a2 : List (String × String)) (d : Date) (longDate : String)
    (v : List (String × String)) :
    writeDailyNote s a2 d longDate (writeDailyNote s a1 d longDate v)
      = writeDailyNote s a2 d longDate v := by
  cases hfind : getFileByPath v (notePath s d) with
  | none =>
    have h1 := writeDailyNote_eq_absent s a1 d longDate v hfind
    have hfind2 : getFileByPath (writeDailyNote s a1 d longDate v) (notePath s d)
        = some (renderBody s a1 longDate) := by
      rw [h1]
      exact getFileByPath_append_single_self v _ _ hfind
    rw [writeDailyNote_eq_present s a2 d longDate _ _ hfind2, h1,
      vaultModify_append_single v _ _ _ hfind,
      writeDailyNote_eq_absent s a2 d longDate v hfind]
  | some c =>
    have h1 := writeDailyNote_eq_present s a1 d longDate v c hfind
    have hfind2 : getFileByPath (writeDailyNote s a1 d longDate v) (notePath s d)
        = some (renderBody s a1 longDate) := by
      rw [h1]
      exact getFileByPath_vaultModify_self v _ _ _ hfind
    rw [writeDailyNote_eq_present s a2 d longDate _ _ hfind2, h1,
      vaultModify_vaultModify,
      writeDailyNote_eq_present s a2 d longDate v c hfind]

/-- C5: `writeDailyNote` touches exactly the path
`dailyFolder ++ "/" ++ YYYY-MM-DD ++ ".md"`: every other path keeps its
content, the resolved path ends up holding the rendered body, and with
folder `"Daily"` and date 2024-03-07 the resolved path is
`"Daily/2024-03-07.md"`. -/
theorem writeDailyNote_path_resolution (s : ReflectionSettings)
    (a : List (String × String)) (d : Date) (longDate : String)
    (v : List (String × String)) :
    (∀ p, p ≠ notePath s d →
        getFileByPath (writeDailyNote s a d longDate v) p = getFileByPath v p)
  ∧ getFileByPath (writeDailyNote s a d longDate v) (notePath s d)
      = some (renderBody s a longDate)
  ∧ ∀ qs, notePath ⟨"Daily", qs⟩ ⟨2024, 3, 7⟩ = "Daily/2024-03-07.md" := by
  refine ⟨?_, ?_, fun _ => rfl⟩
  · intro p hp
    cases hfind : getFileByPath v (notePath s d) with
    | none =>
      rw [writeDailyNote_eq_absent s a d longDate v hfind]
      exact getFileByPath_append_single_other v _ _ _ hp
    | some c =>
      rw [writeDailyNote_eq_present s a d longDate v c hfind]
      exact getFileByPath_vaultModify_other v _ _ _ hp
  · cases hfind : getFileByPath v (notePath s d) with
    | none =>
      rw [writeDailyNote_eq_absent s a d longDate v hfind]
      exact getFileByPath_append_single_self v _ _ hfind
    | some c =>
      rw [writeDailyNote_eq_present s a d longDate v c hfind]
      exact getFileByPath_vaultModify_self v _ _ _ hfind

/-- Witness for C5: an unrelated path is untouched by a concrete write. -/
theorem writeDailyNote_path_resolution_witness :
    getFileByPath
        (writeDailyNote ⟨"Daily", []⟩ [] ⟨2024, 3, 7⟩ "H" [("Other.md", "x")])
        "Other.md"
      = getFileByPath [("Other.md", "x")] "Other.md" :=
  (writeDailyNote_path_resolution ⟨"Daily", []⟩ [] ⟨2024, 3, 7⟩ "H"
    [("Other.md", "x")]).1 "Other.md" (by decide)

/-- C6: `writeDailyNote` first queries the store at the resolved path.  When
no file exists there, it creates a new empty document at that path and then
overwrites it (one more file in the store, holding the rendered body); when
a file exists, it reuses the handle (the store keeps exactly the same paths)
and the prior content is discarded by the overwrite. -/
theorem writeDailyNote_create_or_reuse (s : ReflectionSettings)
    (a : List (String × String)) (d : Date) (longDate : String)
    (v : List (String × String)) :
    (getFileByPath v (notePath s d) = none →
        writeDailyNote s a d longDate v
          = vaultModify (vaultCreate v (notePath s d) "") (notePath s d)
              (renderBody s a longDate)
      ∧ (writeDailyNote s a d longDate v).length = v.length + 1
      ∧ getFileByPath (writeDailyNote s a d longDate v) (notePath s d)
          = some (renderBody s a longDate))
  ∧ ∀ c, getFileByPath v (notePath s d) = some c →
        writeDailyNote s a d longDate v
          = vaultModify v (notePath s d) (renderBody s a longDate)
      ∧ (writeDailyNote s a d longDate v).map Prod.fst = v.map Prod.fst
      ∧ getFileByPath (writeDailyNote s a d longDate v) (notePath s d)
          = some (renderBody s a longDate) := by
  constructor
  · intro h
    refine ⟨by simp only [writeDailyNote, h], ?_, ?_⟩
    · rw [writeDailyNote_eq_absent s a d longDate v h]
      simp
    · rw [writeDailyNote_eq_absent s a d longDate v h]
      exact getFileByPath_append_single_self v _ _ h
  · intro c h
    refine ⟨by simp only [writeDailyNote, h], ?_, ?_⟩
    · rw [writeDailyNote_eq_present s a d longDate v c h]
      exact vaultModify_map_fst v _ _
    · rw [writeDailyNote_eq_present s a d longDate v c h]
      exact getFileByPath_vaultModify_self v _ _ _ h

/-- Witness for C6: a write into an empty store adds one file; a write over
an existing file keeps the store's paths unchanged. -/
theorem writeDailyNote_create_or_reuse_witness :
    (writeDailyNote ⟨"Daily", []⟩ [] ⟨2024, 3, 7⟩ "H" []).length
        = ([] : List (String × String)).length + 1
  ∧ (writeDailyNote ⟨"Daily", []⟩ [] ⟨2024, 3, 7⟩ "H"
        [("Daily/2024-03-07.md", "old")]).map Prod.fst
      = [("Daily/2024-03-07.md", "old")].map Prod.fst :=
  ⟨((writeDailyNote_create_or_reuse ⟨"Daily", []⟩ [] ⟨2024, 3, 7⟩ "H" []).1
      (by decide)).2.1,
   ((writeDailyNote_create_or_reuse ⟨"Daily", []⟩ [] ⟨2024, 3, 7⟩ "H"
        [("Daily/2024-03-07.md", "old")]).2 "old" (by decide)).2.1⟩

/-- C7: a session whose field interactions are followed by the single Save
click invokes the completion callback exactly once, with the accumulated
answer map; a session dismissed without Save invokes it zero times, and the
document store is left untouched. -/
theorem modal_submit_exactly_once (changes : List (String × String)) :
    (runSession (changeEvents changes ++ [FormEvent.save])).submissions
        = [collectAnswers changes]
  ∧ (runSession (changeEvents changes ++ [FormEvent.dismiss])).submissions = []
  ∧ ∀ (s : ReflectionSettings) (d : Date) (longDate : String)
      (v : List (String × String)),
      applySubmissions s d longDate
        (runSession (changeEvents changes ++ [FormEvent.dismiss])).submissions v
      = v := by
  have hrun := runSession_changeEvents changes
  refine ⟨?_, ?_, ?_⟩
  · rw [runSession_append_single, hrun]
    rfl
  · rw [runSession_append_single, hrun]
    rfl
  · intro s d longDate v
    rw [runSession_append_single, hrun]
    rfl

/-- C8: the settings panel stores the folder field's value trimmed of
surrounding whitespace, falling back to the literal `"Daily"` when the
trimmed value is blank; the same literal is the default when `dailyFolder`
is absent from the persisted record. -/
theorem dailyFolder_trim_fallback (value : String) (p : PersistedSettings) :
    (trimString value ≠ "" → storedDailyFolder value = trimString value)
  ∧ (trimString value = "" → storedDailyFolder value = "Daily")
  ∧ (p.dailyFolder = none → (loadSettings p).dailyFolder = "Daily") := by
  refine ⟨fun h => ?_, fun h => ?_, fun h => ?_⟩
  · simp [storedDailyFolder, h]
  · simp [storedDailyFolder, h]
  · simp [loadSettings, h, DEFAULT_SETTINGS]

/-- Witness for C8 at a padded input, a blank input, and the empty record. -/
theorem dailyFolder_trim_fallback_witness :
    storedDailyFolder "  Journal  " = trimString "  Journal  "
  ∧ storedDailyFolder "   " = "Daily"
  ∧ (loadSettings ⟨none, none⟩).dailyFolder = "Daily" :=
  ⟨(dailyFolder_trim_fallback "  Journal  " ⟨none, none⟩).1 (by decide),
   (dailyFolder_trim_fallback "   " ⟨none, none⟩).2.1 (by decide),
   (dailyFolder_trim_fallback "" ⟨none, none⟩).2.2 rfl⟩

/-- C9: a dropdown question with no `choices` passes `loadSettings`
unchanged (no validation at load time) and its rendering fails as an access
into the absent choice list; when every dropdown question carries a present
choice list, rendering the whole form succeeds. -/
theorem dropdown_missing_choices_latent (q : Question) (qs : List Question) :
    (q.type = QType.dropdown → q.choices = none →
        (loadSettings ⟨none, some (q :: qs)⟩).questions = q :: qs
      ∧ renderQuestion q = none)
  ∧ ((∀ r ∈ qs, r.type = QType.dropdown → r.choices ≠ none) →
      ∃ ws, renderForm qs = some ws) := by
  constructor
  · intro htype hchoices
    exact ⟨rfl, by simp [renderQuestion, htype, hchoices]⟩
  · exact renderForm_total qs

/-- Witness for C9: one malformed dropdown slips through the load and fails
to render; a well-formed list renders. -/
theorem dropdown_missing_choices_latent_witness :
    ((loadSettings ⟨none,
          some [⟨"sleepHours", "🛌 Hours of sleep", QType.dropdown, none⟩,
                ⟨"todo", "✅", QType.text, none⟩]⟩).questions
        = [⟨"sleepHours", "🛌 Hours of sleep", QType.dropdown, none⟩,
           ⟨"todo", "✅", QType.text, none⟩]
      ∧ renderQuestion ⟨"sleepHours", "🛌 Hours of sleep", QType.dropdown, none⟩
          = none)
  ∧ ∃ ws, renderForm [⟨"todo", "✅", QType.text, none⟩] = some ws :=
  ⟨(dropdown_missing_choices_latent
      ⟨"sleepHours", "🛌 Hours of sleep", QType.dropdown, none⟩
      [⟨"todo", "✅", QType.text, none⟩]).1 rfl rfl,
   (dropdown_missing_choices_latent
      ⟨"sleepHours", "🛌 Hours of sleep", QType.dropdown, none⟩
      [⟨"todo", "✅", QType.text, none⟩]).2 (by decide)⟩

/-- C10: two answer maps that agree on every configured question id render
identical bodies — entries under keys matching no question's id have no
effect on the persisted content. -/
theorem renderBody_ignores_unconfigured_keys (s : ReflectionSettings)
    (a1 a2 : List (String × String)) (longDate : String)
    (hagree : ∀ q ∈ s.questions, answerValue a1 q.id = answerValue a2 q.id) :
    renderBody s a1 longDate = renderBody s a2 longDate := by
  rw [renderBody_eq, renderBody_eq]
  exact congrArg (fun t => ("# " ++ longDate ++ "\n\n") ++ t)
    (joinParts_map_entry_congr a1 a2 s.questions hagree)

/-- Witness for C10: an extra `junk` entry leaves the body unchanged. -/
theorem renderBody_ignores_unconfigured_keys_witness :
    renderBody ⟨"Daily", [⟨"todo", "T", QType.text, none⟩]⟩
        [("todo", "x"), ("junk", "y")] "H"
      = renderBody ⟨"Daily", [⟨"todo", "T", QType.text, none⟩]⟩
          [("todo", "x")] "H" :=
  renderBody_ignores_unconfigured_keys
    ⟨"Daily", [⟨"todo", "T", QType.text, none⟩]⟩
    [("todo", "x"), ("junk", "y")] [("todo", "x")] "H" (by decide)

end DailyReflection
